import Mathlib

/-!
Verification of the profiling and frame-targeting core of the
auto-video-editor repository (src/profiling.py, src/video_generation.py).

Face-descriptor extraction and the distance metric itself
(`face_recognition.face_distance`) are external capabilities; operations
that use them are parameterised over an abstract distance function
`dist : Encoding → Encoding → ℚ`, matching the spec, which treats the
metric as an opaque external contract.  File and directory I/O is
abstracted: a record file is its path together with its decoded JSON
content, and a directory is the list of its managed record files.
-/

namespace AVE

/-- A face encoding: a fixed-length numeric vector, opaque beyond
elementwise distance computation.  Numeric values are modelled as ℚ. -/
abbrev Encoding := List ℚ

/-- `Profile` from src/profiling.py: identity id, pool of saved face
encodings, and the default tolerance used by `add_face_encoding`. -/
structure Profile where
  id : String
  face_encodings : List Encoding
  add_face_encoding_default_tolerance : ℚ
deriving DecidableEq, Repr

/-- `Profile.face_encoding_distance_against_saved_encodings`:
if no encodings are saved, returns the sentinel `(1, [])`; otherwise the
arithmetic mean of the per-item distances together with the per-item list
(`face_recognition.face_distance` is the abstract `dist`). -/
def face_encoding_distance_against_saved_encodings
    (dist : Encoding → Encoding → ℚ) (p : Profile)
    (face_encoding_to_check : Encoding) : ℚ × List ℚ :=
  if p.face_encodings.length = 0 then
    (1, [])
  else
    let face_distances := p.face_encodings.map (fun s => dist s face_encoding_to_check)
    (face_distances.sum / (face_distances.length : ℚ), face_distances)

/-- `Profile.add_face_encoding`.  Python mutates `self`; the model returns
the pair (returned bool, post-state profile).  The source:

* resolves `tolerance` to the profile default when `None`;
* unless `force_add`, computes `(avg_distance, individual_distances)`;
* average mode (`check_against_every_saved_encoding = False`):
  `if not (avg_distance > tolerance): return False`;
* all mode: `for distance in individual_distances: if distance > tolerance:
  return False`;
* otherwise appends the encoding and returns True. -/
def add_face_encoding (dist : Encoding → Encoding → ℚ) (p : Profile)
    (face_encoding : Encoding) (tolerance : Option ℚ)
    (check_against_every_saved_encoding : Bool) (force_add : Bool) :
    Bool × Profile :=
  let tol := tolerance.getD p.add_face_encoding_default_tolerance
  if force_add then
    (true, { p with face_encodings := p.face_encodings ++ [face_encoding] })
  else
    let r := face_encoding_distance_against_saved_encodings dist p face_encoding
    if check_against_every_saved_encoding = false then
      if ¬ (r.1 > tol) then
        (false, p)
      else
        (true, { p with face_encodings := p.face_encodings ++ [face_encoding] })
    else
      if r.2.any (fun distance => decide (distance > tol)) then
        (false, p)
      else
        (true, { p with face_encodings := p.face_encodings ++ [face_encoding] })

/-- A concrete metric (L1) standing in for the external `face_distance`
capability when claims are evaluated on concrete inputs. -/
def l1dist (a b : Encoding) : ℚ :=
  (List.zipWith (fun x y => if x ≤ y then y - x else x - y) a b).sum

/-- C9: for every abstract metric and encoding vector, querying a Profile
with zero saved encodings returns exactly the sentinel `(1, [])`. -/
theorem distance_against_empty_collection
    (dist : Encoding → Encoding → ℚ) (i : String) (tol : ℚ) (e : Encoding) :
    face_encoding_distance_against_saved_encodings dist ⟨i, [], tol⟩ e = (1, []) :=
  rfl

/-- C1 (code bug): the AVERAGE-mode test in `add_face_encoding` is inverted.
With one saved encoding at distance 0 and tolerance 1/2 (average 0 ≤ 1/2)
the call returns `false` and leaves the profile unchanged, although the
docstring says such a sufficiently-matching encoding is added; and with a
candidate at distance 10 (average 10 > 1/2) the call appends it and
returns `true`. -/
theorem add_face_encoding_average_mode_inverted :
    add_face_encoding l1dist ⟨"p", [[0]], 1/2⟩ [0] none false false
      = (false, ⟨"p", [[0]], 1/2⟩)
    ∧ add_face_encoding l1dist ⟨"p", [[0]], 1/2⟩ [10] none false false
      = (true, ⟨"p", [[0], [10]], 1/2⟩) := by
  refine ⟨?_, ?_⟩ <;>
    simp [add_face_encoding, face_encoding_distance_against_saved_encodings, l1dist] <;>
    norm_num

/-- C6: in ALL mode (`check_against_every_saved_encoding = True`, no force),
for a profile with at least one saved encoding, the call succeeds exactly
when every per-item distance is within the effective tolerance, and any
single per-item violation makes it return `false` with the profile
unchanged (regardless of the average). -/
theorem add_face_encoding_all_mode (dist : Encoding → Encoding → ℚ)
    (p : Profile) (e : Encoding) (t : ℚ) (h : p.face_encodings ≠ []) :
    (((add_face_encoding dist p e (some t) true false).1 = true)
        ↔ ∀ d ∈ (face_encoding_distance_against_saved_encodings dist p e).2, d ≤ t)
    ∧ ((∃ d ∈ (face_encoding_distance_against_saved_encodings dist p e).2, t < d)
        → add_face_encoding dist p e (some t) true false = (false, p)) := by
  by_cases hany : (face_encoding_distance_against_saved_encodings dist p e).2.any
      (fun distance => decide (distance > t)) = true
  · have hex : ∃ d ∈ (face_encoding_distance_against_saved_encodings dist p e).2, t < d := by
      simpa [List.any_eq_true] using hany
    constructor
    · simp only [add_face_encoding, Option.getD]
      simp [hany]
      obtain ⟨d, hd, hdt⟩ := hex
      exact ⟨d, hd, hdt⟩
    · intro _
      simp only [add_face_encoding, Option.getD]
      simp [hany]
  · have hall : ∀ d ∈ (face_encoding_distance_against_saved_encodings dist p e).2, d ≤ t := by
      intro d hd
      by_contra hdt
      exact hany (by simp [List.any_eq_true]; exact ⟨d, hd, not_le.mp hdt⟩)
    constructor
    · simp only [add_face_encoding, Option.getD]
      simp [hany]
      exact hall
    · intro hex
      obtain ⟨d, hd, hdt⟩ := hex
      exact absurd (hall d hd) (not_le.mpr hdt)

/-- Concrete profile for evaluating the ALL-mode claim: nine saved
encodings identical to the candidate and a single distant one. -/
def profileAllMode : Profile :=
  ⟨"w", [[0], [0], [0], [0], [0], [0], [0], [0], [0], [1]], 0⟩

/-- Witness for C6: against `profileAllMode` and candidate `[0]` with
tolerance 1/2, nine per-item distances are 0 and one is 1 (average 1/10,
which would pass), yet ALL mode rejects and leaves the profile unchanged. -/
theorem add_face_encoding_all_mode_witness :
    profileAllMode.face_encodings ≠ []
    ∧ add_face_encoding l1dist profileAllMode [0] (some (1/2)) true false
        = (false, profileAllMode)
    ∧ (face_encoding_distance_against_saved_encodings l1dist profileAllMode [0]).1 ≤ 1/2 := by
  refine ⟨by simp [profileAllMode], ?_, ?_⟩
  · refine (add_face_encoding_all_mode l1dist profileAllMode [0] (1/2)
      (by simp [profileAllMode])).2 ⟨1, ?_, ?_⟩
    · simp [face_encoding_distance_against_saved_encodings, profileAllMode, l1dist]
      norm_num
    · norm_num
  · simp [face_encoding_distance_against_saved_encodings, profileAllMode, l1dist]
    norm_num

/-! ### JSON records and (de)serialization -/

/-- A decoded JSON value (the result of `json.load` / the argument of
`json.dumps`).  `num` models a JSON floating-point number; the repository
only ever writes floats into records. -/
inductive JValue where
  | str (s : String)
  | num (q : ℚ)
  | arr (elems : List JValue)
  | obj (fields : List (String × JValue))

/-- The Python runtime type of a decoded JSON value, as seen by
`type(...)` comparisons in the source. -/
inductive PyType where
  | str
  | float
  | list
  | dict
deriving DecidableEq, Repr

def JValue.pyType : JValue → PyType
  | .str _ => .str
  | .num _ => .float
  | .arr _ => .list
  | .obj _ => .dict

/-- `data[key]` on a decoded JSON object (JSON objects have unique keys,
so the first binding is the binding). -/
def jlookup (fields : List (String × JValue)) (k : String) : Option JValue :=
  (fields.find? (fun kv => kv.1 == k)).map Prod.snd

/-- Keys of a decoded JSON object (`data.keys()`). -/
def jkeys (fields : List (String × JValue)) : List String :=
  fields.map Prod.fst

/-- `str.join` from Python, used for building error messages. -/
def join_with (sep : String) : List String → String
  | [] => ""
  | [x] => x
  | x :: y :: xs => x ++ sep ++ join_with sep (y :: xs)

/-- `numpy.array` applied to one decoded JSON list
(`_list_list_to_NDArray_list` per element): profile records written by
this repository store numeric lists only, so the numeric entries are
read. -/
def toEncoding : JValue → Encoding
  | .arr xs => xs.filterMap fun v =>
      match v with
      | .num q => some q
      | _ => none
  | _ => []

/-- The dict written by `Profile.save_to_file` (file-system writing is
abstracted away; the record content is what matters).  Note the key
`face_encoding_tolerance` used by the writer. -/
def save_record (p : Profile) : JValue :=
  .obj [("id", .str p.id),
        ("face_encoding_tolerance", .num p.add_face_encoding_default_tolerance),
        ("face_encodings", .arr (p.face_encodings.map (fun e => .arr (e.map JValue.num))))]

/-- The keys `Profile.load_from_file` requires, in source order. -/
def expected_keys : List String :=
  ["id", "face_encodings", "add_face_encoding_default_tolerance"]

/-- The coarse types `Profile.load_from_file` requires, in source order. -/
def expected_types : List (String × PyType) :=
  [("id", .str), ("face_encodings", .list), ("add_face_encoding_default_tolerance", .float)]

/-- Rendering of a Python runtime type inside an error message. -/
def pyTypeName : PyType → String
  | .str => "str"
  | .float => "float"
  | .list => "list"
  | .dict => "dict"

/-- Helper selectors used only after `load_from_record` has verified the
coarse type of each value; the fallback branches are unreachable there. -/
def JValue.asStr : JValue → String
  | .str s => s
  | _ => ""

def JValue.asNum : JValue → ℚ
  | .num q => q
  | _ => 0

def JValue.asArr : JValue → List JValue
  | .arr xs => xs
  | _ => []

/-- The content part of `Profile.load_from_file` (existence and the
`.json`-suffix checks on the path are upstream of the decoded data and
abstracted away): raise `KeyError` at the first missing expected key,
then `TypeError` at the first wrongly-typed value, then build the
Profile.  Errors are modelled as messages (quoting punctuation elided). -/
def load_from_record (filepath : String) (data : JValue) :
    Except String Profile :=
  match data with
  | .obj fields =>
    match expected_keys.find? (fun k => !((jkeys fields).contains k)) with
    | some missing =>
        .error ("json located at " ++ filepath ++ " is missing expected key: " ++ missing)
    | none =>
      match expected_types.find?
          (fun kt => ((jlookup fields kt.1).map JValue.pyType) != some kt.2) with
      | some kt =>
          .error ("key " ++ kt.1 ++ " expected to be of type " ++ pyTypeName kt.2 ++
            " , recieved type " ++
            (match (jlookup fields kt.1).map JValue.pyType with
             | some t => pyTypeName t
             | none => "missing"))
      | none =>
          .ok { id := ((jlookup fields "id").getD (.str "")).asStr,
                face_encodings :=
                  (((jlookup fields "face_encodings").getD (.arr [])).asArr).map toEncoding,
                add_face_encoding_default_tolerance :=
                  ((jlookup fields "add_face_encoding_default_tolerance").getD (.num 0)).asNum }
  | _ =>
      .error ("json located at " ++ filepath ++ " was not loaded as a dict")

/-- C2 (code bug): the writer stores the tolerance under
`face_encoding_tolerance` while the loader demands
`add_face_encoding_default_tolerance`, so deserializing the record
produced by serializing any Profile always raises `KeyError` instead of
reconstructing the profile. -/
theorem round_trip_always_raises_key_error (p : Profile) (filepath : String) :
    load_from_record filepath (save_record p)
      = .error ("json located at " ++ filepath ++
          " is missing expected key: " ++ "add_face_encoding_default_tolerance") := by
  simp [load_from_record, save_record, expected_keys, expected_types, jkeys, List.find?]

/-! ### ProfilesManager: registry, directory validation, loading -/

/-- A `ProfilesManager` instance.  In the source, `profiles` is declared
as a class attribute initialised to a shared dict, and no method ever
rebinds `self.profiles`, so every read of `self.profiles` and every
in-place mutation (`self.profiles[id] = ...`, `.pop`) targets the single
class-level mapping shared by all instances.  It is therefore modelled as
`World.ProfilesManager_profiles` below, not as an instance field.
`directory` _is_ rebound per instance (`self.directory = directory` in
`save_to_directory`), so it lives on the instance. -/
structure ProfilesManager where
  directory : Option String
deriving DecidableEq, Repr

/-- The class-attribute state of the Python process: the one dict bound
to the class attribute `ProfilesManager.profiles` (insertion-ordered). -/
structure World where
  ProfilesManager_profiles : List (String × Profile)
deriving DecidableEq, Repr

/-- `ProfilesManager.exists_profile`: membership in `self.profiles.keys()`
(which resolves to the shared class dict). -/
def exists_profile (w : World) (_self : ProfilesManager) (profile_id : String) : Bool :=
  (w.ProfilesManager_profiles.map Prod.fst).contains profile_id

/-- `ProfilesManager.add_profile`: raises `ProfileExistsError` on a
duplicate id, otherwise inserts into the (shared) dict. -/
def add_profile (w : World) (self : ProfilesManager) (profile : Profile) :
    Except String World :=
  if exists_profile w self profile.id then
    .error ("a profile with id " ++ profile.id ++ " already exists.")
  else
    .ok { w with ProfilesManager_profiles :=
            w.ProfilesManager_profiles ++ [(profile.id, profile)] }

/-- C4 (code bug): the registry is shared between distinct manager
instances.  Starting from a state in which no profile is registered,
adding a profile through `m1` makes it visible through the distinct
instance `m2`. -/
theorem registry_shared_across_instances :
    exists_profile ⟨[]⟩ ⟨some "other"⟩ "alice" = false
    ∧ add_profile ⟨[]⟩ ⟨none⟩ ⟨"alice", [], 0⟩
        = .ok ⟨[("alice", ⟨"alice", [], 0⟩)]⟩
    ∧ exists_profile ⟨[("alice", ⟨"alice", [], 0⟩)]⟩ ⟨some "other"⟩ "alice" = true := by
  refine ⟨rfl, ?_, rfl⟩
  simp [add_profile, exists_profile]

/-- The set of shapes `typing.get_origin` is compared against in
`validate_profile_file` (`str`, `float`, `list[list[float]]`). -/
inductive GenericAlias where
  | str
  | float
  | list_list_float
deriving DecidableEq, Repr

/-- `typing.get_origin` applied to a value decoded from JSON: such a
value is a concrete `str`, `float`, `list` or `dict` instance, never a
parameterized generic alias, so `get_origin` returns `None` on it. -/
def get_origin (_v : JValue) : Option GenericAlias := none

/-- `key_type_map` from `ProfilesManager.validate_profile_file`. -/
def key_type_map : List (String × GenericAlias) :=
  [("id", .str),
   ("add_face_encoding_default_tolerance", .float),
   ("face_encodings", .list_list_float)]

/-- The composite message built by `validate_profile_file` when keys are
missing or (per the source intent) wrongly typed. -/
def profile_error_message (profile_path : String)
    (missing_keys incorrect_type_keys : List String) : String :=
  "profile located at " ++ profile_path ++
    (" " ++
      join_with " and "
        ((if missing_keys.length > 0 then
            ["contained missing keys : [ " ++ join_with ", " missing_keys ++ " ]"]
          else []) ++
         (if incorrect_type_keys.length > 0 then
            ["contained invalid types for keys : [ " ++
               join_with ", " incorrect_type_keys ++ " ]"]
          else [])))

/-- The content part of `ProfilesManager.validate_profile_file` (the
existence / regular-file / filename-suffix checks concern the path and
are abstracted away; `data` is the decoded JSON).  One pass over
`key_type_map` collects the missing keys and the keys whose value
satisfies `get_origin(data[key]) == key_type_map[key]`; the source
intends the latter as a wrong-type check.  Returns `True` (the literal
the source returns) on success. -/
def validate_profile_file (profile_path : String) (data : JValue) :
    Except String Bool :=
  match data with
  | .obj fields =>
    let missing_keys :=
      (key_type_map.map Prod.fst).filter (fun k => !((jkeys fields).contains k))
    let incorrect_type_keys :=
      key_type_map.filterMap (fun kt =>
        match jlookup fields kt.1 with
        | none => none
        | some v => if get_origin v == some kt.2 then some kt.1 else none)
    if missing_keys.length > 0 ∨ incorrect_type_keys.length > 0 then
      .error (profile_error_message profile_path missing_keys incorrect_type_keys)
    else
      .ok true
  | _ =>
      .error ("expected to load json at " ++ profile_path ++
        (" as type dict. Instead was loaded as type " ++ pyTypeName data.pyType ++ " ."))

/-- C5 (code bug): `validate_profile_file` accepts a record whose three
expected keys are all present but all of the wrong coarse type (`id` a
number, the tolerance a string, `face_encodings` a number): the
`get_origin(value) == expected_type` comparison is always false on a
decoded JSON value, so the wrong-type collection is always empty and no
type error is ever reported. -/
theorem validate_profile_file_accepts_wrong_types :
    validate_profile_file "bad.profile.json"
      (.obj [("id", .num 3),
             ("add_face_encoding_default_tolerance", .str "x"),
             ("face_encodings", .num 0)])
      = .ok true := by
  rfl

/-- A directory, abstracted: the managed record files discovered in it
(the glob over names ending in `profile_file_ext`), each as
(path, decoded JSON content). -/
abbrev DirectoryFiles := List (String × JValue)

/-- The exceptions collected by `ProfilesManager.validate_directory` while
validating each discovered profile file (default
`instantly_break_on_invalid = False` path: no early break). -/
def directory_exceptions (files : DirectoryFiles) : List String :=
  files.filterMap (fun f =>
    match validate_profile_file f.1 f.2 with
    | .error e => some e
    | .ok _ => none)

/-- The composite `ValueError` message raised by `validate_directory`. -/
def invalid_directory_message (directory : String) (exceptions : List String) : String :=
  "The directory " ++ directory ++
    (" is invalid. The following exceptions were raised while attempting to validate the profiles contained within:[\n" ++
      (join_with ", " exceptions ++ "\n]"))

/-- `ProfilesManager.validate_directory` (content part; the directory
existence / is-directory checks concern the path and are abstracted):
validates every discovered file, collects all exceptions, raises one
composite error when any exist, otherwise returns the file paths. -/
def validate_directory (directory : String) (files : DirectoryFiles) :
    Except String (List String) :=
  let exceptions := directory_exceptions files
  if exceptions.length > 0 then
    .error (invalid_directory_message directory exceptions)
  else
    .ok (files.map Prod.fst)

/-- The loading loop of `load_from_directory`: for each path,
`load_profile_from_file(path, validate=False)`, i.e.
`Profile.load_from_file` then `add_profile`; an exception propagates and
stops the loop with the world as mutated so far. -/
def load_profiles (m : ProfilesManager) : World → DirectoryFiles → Option String × World
  | w, [] => (none, w)
  | w, f :: rest =>
    match load_from_record f.1 f.2 with
    | .error e => (some e, w)
    | .ok p =>
      match add_profile w m p with
      | .error e => (some e, w)
      | .ok w1 => load_profiles m w1 rest

/-- `ProfilesManager.load_from_directory`: validate the whole directory
first; only when validation succeeds load each file into the registry. -/
def load_from_directory (w : World) (m : ProfilesManager) (directory : String)
    (files : DirectoryFiles) : Option String × World :=
  match validate_directory directory files with
  | .error e => (some e, w)
  | .ok _profile_paths => load_profiles m w files

theorem mem_directory_exceptions {files : DirectoryFiles} {f : String × JValue}
    {e : String} (hf : f ∈ files)
    (he : validate_profile_file f.1 f.2 = .error e) :
    e ∈ directory_exceptions files := by
  simp only [directory_exceptions, List.mem_filterMap]
  exact ⟨f, hf, by simp [he]⟩

theorem join_with_mem_found (sep : String) (l : List String) (e : String)
    (he : e ∈ l) : e.data <:+: (join_with sep l).data := by
  induction l with
  | nil => cases he
  | cons x xs ih =>
    cases xs with
    | nil =>
      have hx : e = x := by simpa using he
      subst hx
      exact ⟨[], [], by simp [join_with]⟩
    | cons y ys =>
      rcases List.mem_cons.mp he with rfl | hmem
      · exact ⟨[], sep.data ++ (join_with sep (y :: ys)).data,
          by simp [join_with, String.data_append]⟩
      · obtain ⟨s, t, hst⟩ := ih hmem
        exact ⟨x.data ++ sep.data ++ s, t,
          by simp [join_with, String.data_append, ← hst]⟩

theorem mem_exceptions_infix_message (directory : String) (exceptions : List String)
    (e : String) (he : e ∈ exceptions) :
    e.data <:+: (invalid_directory_message directory exceptions).data := by
  refine (join_with_mem_found ", " exceptions e he).trans ?_
  exact ⟨("The directory " ++ directory ++
      " is invalid. The following exceptions were raised while attempting to validate the profiles contained within:[\n").data,
    ("\n]").data, by simp [invalid_directory_message, String.data_append]⟩

theorem data_infix_append_left (a s t : String) : s.data <:+: (a ++ s ++ t).data :=
  ⟨a.data, t.data, by simp [String.data_append]⟩

theorem validate_profile_file_error_names_path (path : String) (d : JValue)
    (e : String) (h : validate_profile_file path d = .error e) :
    path.data <:+: e.data := by
  cases d with
  | obj fields =>
    simp only [validate_profile_file] at h
    split at h
    · rw [Except.error.injEq] at h
      subst h
      exact data_infix_append_left "profile located at " path _
    · cases h
  | str s =>
    simp only [validate_profile_file, Except.error.injEq] at h
    subst h
    exact data_infix_append_left "expected to load json at " path _
  | num q =>
    simp only [validate_profile_file, Except.error.injEq] at h
    subst h
    exact data_infix_append_left "expected to load json at " path _
  | arr elems =>
    simp only [validate_profile_file, Except.error.injEq] at h
    subst h
    exact data_infix_append_left "expected to load json at " path _

/-- C3: whenever at least one managed record file in the directory is
invalid, `load_from_directory` raises the single composite error built
from the validation failures of every invalid file, the message names
(contains the path of) each invalid file, and the registry is exactly as
before the call — no file is loaded before the whole directory
validates. -/
theorem load_from_directory_invalid_aggregates
    (w : World) (m : ProfilesManager) (directory : String) (files : DirectoryFiles)
    (h : ∃ f ∈ files, ∃ e, validate_profile_file f.1 f.2 = .error e) :
    load_from_directory w m directory files
      = (some (invalid_directory_message directory (directory_exceptions files)), w)
    ∧ ∀ f ∈ files, ∀ e, validate_profile_file f.1 f.2 = .error e →
        f.1.data <:+:
          (invalid_directory_message directory (directory_exceptions files)).data := by
  obtain ⟨f0, hf0, e0, he0⟩ := h
  have hne : directory_exceptions files ≠ [] := by
    intro hnil
    have := mem_directory_exceptions hf0 he0
    rw [hnil] at this
    cases this
  constructor
  · simp only [load_from_directory, validate_directory]
    rw [if_pos (by simpa [List.length_pos] using hne)]
  · intro f hf e he
    exact (validate_profile_file_error_names_path f.1 f.2 e he).trans
      (mem_exceptions_infix_message directory (directory_exceptions files) e
        (mem_directory_exceptions hf he))

/-- A well-formed record (all three keys present). -/
def goodRecord : JValue :=
  .obj [("id", .str "good"),
        ("add_face_encoding_default_tolerance", .num 0),
        ("face_encodings", .arr [])]

/-- A record missing the `id` key. -/
def badRecord : JValue :=
  .obj [("add_face_encoding_default_tolerance", .num 0),
        ("face_encodings", .arr [])]

/-- A directory holding one well-formed and one invalid record. -/
def filesEx : DirectoryFiles :=
  [("good.profile.json", goodRecord), ("bad.profile.json", badRecord)]

/-- Witness for C3: on a directory with one well-formed record and one
record missing `id`, loading from an empty registry raises the composite
error, the message contains the bad file path, and the registry stays
empty. -/
theorem load_from_directory_invalid_aggregates_witness :
    (∃ f ∈ filesEx, ∃ e, validate_profile_file f.1 f.2 = .error e)
    ∧ (load_from_directory ⟨[]⟩ ⟨none⟩ "profiles" filesEx
        = (some (invalid_directory_message "profiles" (directory_exceptions filesEx)), ⟨[]⟩)
      ∧ ∀ f ∈ filesEx, ∀ e, validate_profile_file f.1 f.2 = .error e →
          f.1.data <:+:
            (invalid_directory_message "profiles" (directory_exceptions filesEx)).data) := by
  have h : ∃ f ∈ filesEx, ∃ e, validate_profile_file f.1 f.2 = .error e := by
    refine ⟨("bad.profile.json", badRecord), by simp [filesEx], ?_⟩
    exact ⟨_, rfl⟩
  exact ⟨h, load_from_directory_invalid_aggregates ⟨[]⟩ ⟨none⟩ "profiles" filesEx h⟩

/-! ### Frame targeting (src/video_generation.py) -/

/-- A face bounding box as produced by the external face-locating
capability: the source indexes it as [0]=top, [1]=right, [2]=bottom,
[3]=left. -/
structure FaceLocation where
  top : ℤ
  right : ℤ
  bottom : ℤ
  left : ℤ
deriving DecidableEq, Repr

/-- A video frame: `shape[0]` (height), `shape[1]` (width) and abstract
pixel contents indexed (row, column). -/
structure Frame where
  height : ℤ
  width : ℤ
  pixel : ℤ → ℤ → ℤ

/-- Python `int(...)` applied to the float crop coordinate: truncation
toward zero. -/
def int_trunc (q : ℚ) : ℤ :=
  if 0 ≤ q then ⌊q⌋ else ⌈q⌉

/-- The slice `frame[top : top+h, left : left+w]` for the in-bounds
origins produced below (basic rectangular slicing). -/
def Frame.slice (fr : Frame) (top left h w : ℤ) : Frame :=
  ⟨h, w, fun r c => fr.pixel (top + r) (left + c)⟩

/-- The 4-tuple returned by `crop_frame_around_face`; the empty-list
image of the failure case is modelled as `none`. -/
structure CropResult where
  success : Bool
  cropped : Option Frame
  position : ℤ × ℤ
  dimensions : ℤ × ℤ

/-- `all(face_recognition.compare_faces(target_face_encodings, encoding,
tolerance))`: every target vector must be at distance ≤ tolerance from
the detected encoding (vacuously true for an empty target list). -/
def matches_all_targets (dist : Encoding → Encoding → ℚ)
    (target_face_encodings : List Encoding) (tolerance : ℚ)
    (encoding : Encoding) : Bool :=
  target_face_encodings.all (fun t => decide (dist t encoding ≤ tolerance))

/-- The search loop of `crop_frame_around_face`: the detected faces are
the zip of `face_locations` and `face_encodings` (one location per
encoding, same order, per the external contract); the first whose
encoding matches all targets wins. -/
def find_matching_face (dist : Encoding → Encoding → ℚ)
    (target_face_encodings : List Encoding) (tolerance : ℚ)
    (faces : List (FaceLocation × Encoding)) : Option FaceLocation :=
  (faces.find? (fun fe => matches_all_targets dist target_face_encodings tolerance fe.2)).map
    Prod.fst

/-- `crop_frame_around_face` from src/video_generation.py, with face
detection abstracted to the supplied `faces` list.  On no match, returns
the structured failure `(False, [], (-1,-1), (-1,-1))`; otherwise centers
a `crop_to_dimensions` rectangle on the matched face and clamps each axis
into the frame independently (the Python if/elif pair per axis). -/
def crop_frame_around_face (dist : Encoding → Encoding → ℚ) (frame : Frame)
    (faces : List (FaceLocation × Encoding)) (crop_to_dimensions : ℤ × ℤ)
    (target_face_encodings : List Encoding) (face_match_tolerance : ℚ) :
    CropResult :=
  match find_matching_face dist target_face_encodings face_match_tolerance faces with
  | none => ⟨false, none, (-1, -1), (-1, -1)⟩
  | some target_face_location_in_frame =>
    let frame_width := frame.width
    let frame_height := frame.height
    let face_left := target_face_location_in_frame.left
    let face_right := target_face_location_in_frame.right
    let face_top := target_face_location_in_frame.top
    let face_bottom := target_face_location_in_frame.bottom
    let face_width := face_right - face_left
    let face_height := face_bottom - face_top
    let crop_to_width := crop_to_dimensions.1
    let crop_to_height := crop_to_dimensions.2
    let crop_to_left :=
      int_trunc ((face_left : ℚ) + ((face_width : ℚ) - (crop_to_width : ℚ)) / 2)
    let crop_to_top :=
      int_trunc ((face_top : ℚ) + ((face_height : ℚ) - (crop_to_height : ℚ)) / 2)
    let crop_to_left :=
      if crop_to_left < 0 then 0
      else if crop_to_left + crop_to_width > frame_width then frame_width - crop_to_width
      else crop_to_left
    let crop_to_top :=
      if crop_to_top < 0 then 0
      else if crop_to_top + crop_to_height > frame_height then frame_height - crop_to_height
      else crop_to_top
    ⟨true, some (frame.slice crop_to_top crop_to_left crop_to_height crop_to_width),
      (crop_to_left, crop_to_top), (crop_to_width, crop_to_height)⟩

/-- The per-axis crop-origin rule as the spec words it: origin =
face_min + (face_extent - target_extent) / 2, clamped independently per
axis: a negative origin becomes 0, an origin whose rectangle overruns the
frame becomes frame_extent - target_extent. -/
def spec_axis_origin (face_min face_extent target_extent frame_extent : ℤ) : ℤ :=
  let origin :=
    int_trunc ((face_min : ℚ) + ((face_extent : ℚ) - (target_extent : ℚ)) / 2)
  if origin < 0 then 0
  else if origin + target_extent > frame_extent then frame_extent - target_extent
  else origin

/-- C7: whenever a matching face is found, the crop succeeds, its origin
is the spec per-axis centered-then-clamped coordinate on each axis
independently, and its dimensions are the requested target dimensions. -/
theorem crop_origin_matches_spec (dist : Encoding → Encoding → ℚ) (frame : Frame)
    (faces : List (FaceLocation × Encoding)) (dims : ℤ × ℤ)
    (targets : List Encoding) (tol : ℚ) (loc : FaceLocation)
    (h : find_matching_face dist targets tol faces = some loc) :
    (crop_frame_around_face dist frame faces dims targets tol).success = true
    ∧ (crop_frame_around_face dist frame faces dims targets tol).position
        = (spec_axis_origin loc.left (loc.right - loc.left) dims.1 frame.width,
           spec_axis_origin loc.top (loc.bottom - loc.top) dims.2 frame.height)
    ∧ (crop_frame_around_face dist frame faces dims targets tol).dimensions = dims := by
  simp [crop_frame_around_face, h, spec_axis_origin]

/-- The concrete 200x200 frame of the spec scenario. -/
def frameEx : Frame := ⟨200, 200, fun _ _ => 0⟩

/-- The face box (top=40, right=120, bottom=100, left=60). -/
def cropLocEx : FaceLocation := ⟨40, 120, 100, 60⟩

/-- One detected face at `cropLocEx` with encoding [0]. -/
def cropFacesEx : List (FaceLocation × Encoding) := [(cropLocEx, [0])]

/-- Witness for C7, the spec scenario: 200x200 frame, face box with
width and height 60, target dimensions (80,80): the matched crop is
`(true, pixels, (50, 30), (80, 80))`, unclamped on both axes. -/
theorem crop_origin_matches_spec_witness :
    find_matching_face l1dist [[0]] (3/5) cropFacesEx = some cropLocEx
    ∧ (crop_frame_around_face l1dist frameEx cropFacesEx (80, 80) [[0]] (3/5)).success = true
    ∧ (crop_frame_around_face l1dist frameEx cropFacesEx (80, 80) [[0]] (3/5)).position = (50, 30)
    ∧ (crop_frame_around_face l1dist frameEx cropFacesEx (80, 80) [[0]] (3/5)).dimensions
        = (80, 80) := by
  have h : find_matching_face l1dist [[0]] (3/5) cropFacesEx = some cropLocEx := by
    simp [find_matching_face, matches_all_targets, cropFacesEx, l1dist]
    norm_num
  have H := crop_origin_matches_spec l1dist frameEx cropFacesEx (80, 80) [[0]] (3/5) cropLocEx h
  refine ⟨h, H.1, ?_, H.2.2⟩
  rw [H.2.1]
  norm_num [spec_axis_origin, int_trunc, cropLocEx, frameEx]

/-- C8: when no detected face matches every target encoding (also when no
face is detected at all), `crop_frame_around_face` returns the structured
failure `(False, [], (-1,-1), (-1,-1))`. -/
theorem crop_no_match_structured_failure (dist : Encoding → Encoding → ℚ)
    (frame : Frame) (faces : List (FaceLocation × Encoding)) (dims : ℤ × ℤ)
    (targets : List Encoding) (tol : ℚ)
    (h : ∀ fe ∈ faces, ∃ t ∈ targets, tol < dist t fe.2) :
    crop_frame_around_face dist frame faces dims targets tol
      = ⟨false, none, (-1, -1), (-1, -1)⟩ := by
  have hfind : find_matching_face dist targets tol faces = none := by
    simp only [find_matching_face, Option.map_eq_none']
    rw [List.find?_eq_none]
    intro fe hfe
    obtain ⟨t, ht, hnt⟩ := h fe hfe
    simp only [matches_all_targets, List.all_eq_true, decide_eq_true_eq, not_forall]
    exact ⟨t, ht, not_le.mpr hnt⟩
  simp [crop_frame_around_face, hfind]

/-- Witness for C8: a single detected face whose encoding [5] is at
distance 5 from the sole target [0], above tolerance 3/5: the call
returns the failure tuple. -/
theorem crop_no_match_structured_failure_witness :
    crop_frame_around_face l1dist frameEx [(cropLocEx, [5])] (80, 80) [[0]] (3/5)
      = ⟨false, none, (-1, -1), (-1, -1)⟩ := by
  refine crop_no_match_structured_failure l1dist frameEx [(cropLocEx, [5])] (80, 80)
    [[0]] (3/5) ?_
  intro fe hfe
  rcases List.mem_singleton.mp hfe with rfl
  refine ⟨[0], by simp, ?_⟩
  norm_num [l1dist]

/-- C10: with an empty `target_face_encodings` list, every detected face
matches vacuously, so when at least one face is detected the call always
succeeds and selects the first detected face.  (The spec does not state
this edge case.) -/
theorem empty_targets_selects_first_face (dist : Encoding → Encoding → ℚ)
    (frame : Frame) (f : FaceLocation × Encoding)
    (rest : List (FaceLocation × Encoding)) (dims : ℤ × ℤ) (tol : ℚ) :
    find_matching_face dist [] tol (f :: rest) = some f.1
    ∧ (crop_frame_around_face dist frame (f :: rest) dims [] tol).success = true := by
  have hfind : find_matching_face dist [] tol (f :: rest) = some f.1 := by
    simp [find_matching_face, matches_all_targets]
  exact ⟨hfind, by simp [crop_frame_around_face, hfind]⟩

end AVE
